import Mathlib

/-!
A shallow embedding of the optuna-core study orchestration layer
(`src/optuna_core/study/_study.py`, `src/optuna_core/study/_study_summary.py`,
`src/optuna_core/pruners/__init__.py`) together with the storage and trial
collaborators those modules consume.  The concrete storage backend
(`InMemoryStorage`) and the trial module (`create_trial`, `FrozenTrial._validate`)
are not part of the source slice, so they are modelled from the storage and
trial contracts stated in the specification (sections 3, 4.1 and 4.3); every
such definition carries a doc comment saying so.  Objective values are embedded
as integers: the claims under study only compare values, and integer comparison
mirrors float comparison on the values the claims touch.  Wall-clock fields
(`datetime_start`, `datetime_complete` of a trial) are outside the model; no
claim mentions them.
-/

namespace OptunaCore

/-- The trial state machine of the spec (section 3):
WAITING to RUNNING to one of the terminal states COMPLETE, PRUNED, FAIL. -/
inductive TrialState where
  | WAITING
  | RUNNING
  | COMPLETE
  | PRUNED
  | FAIL
deriving DecidableEq

/-- Mirrors `TrialState.is_finished` of optuna: terminal states only. -/
def TrialState.is_finished : TrialState → Bool
  | .COMPLETE => true
  | .PRUNED => true
  | .FAIL => true
  | _ => false

/-- Optimization direction of a study (`StudyDirection`). -/
inductive StudyDirection where
  | MINIMIZE
  | MAXIMIZE
deriving DecidableEq

/-- A search-space descriptor; the source examples use
`UniformDistribution(low, high)`. -/
inductive Distribution where
  | uniform_distribution (low high : Int)
deriving DecidableEq

/-- A serializable attribute value, as stored in the user/system attribute
mappings.  `params_val` is the payload shape `enqueue_trial` stores under the
key "fixed_params". -/
inductive AttrVal where
  | int_val (i : Int)
  | str_val (s : String)
  | params_val (p : List (String × Int))
deriving DecidableEq

/-- The error signals this layer raises or propagates.  Distinct constructors
keep the empty-result error of `best_trial` distinct from a storage failure,
as the spec requires (section 7). -/
inductive StudyError where
  | empty_result
  | storage_failure
  | duplicated_study
  | value_error
  | runtime_error
  | assertion_error
deriving DecidableEq

/-- Immutable snapshot of a trial (spec section 3).  `number` is 0-based and
sequential within a study; `value` is meant to be present exactly for COMPLETE
trials. -/
structure FrozenTrial where
  number : Nat
  state : TrialState
  value : Option Int
  params : List (String × Int)
  distributions : List (String × Distribution)
  intermediate_values : List (Nat × Int)
  user_attrs : List (String × AttrVal)
  system_attrs : List (String × AttrVal)
deriving DecidableEq

/-- The trial handle returned by `ask`: a thin proxy holding only the storage
id of its trial (spec section 3). -/
structure Trial where
  trial_id : Nat
deriving DecidableEq

/-- Modelled from the spec: the trial records of one study inside the storage
backend (`InMemoryStorage` is not part of the source slice).  The model is
scoped to a single study, so the storage-scoped `trial_id` coincides with the
study-scoped `number`. -/
structure TrialStore where
  trials : List FrozenTrial
deriving DecidableEq

/-- A fresh study has no trials. -/
def TrialStore.empty : TrialStore := ⟨[]⟩

/-- Modelled from the spec (section 4.3): `create_new_trial` assigns the next
sequential number atomically; with no template the new trial starts RUNNING
(section 3: a trial created via `ask()` starts directly in RUNNING), and with a
template the template's params/state/value/attrs are copied in under the
freshly assigned number. -/
def create_new_trial (ts : TrialStore) (template : Option FrozenTrial) :
    TrialStore × Nat :=
  let number := ts.trials.length
  let t : FrozenTrial :=
    match template with
    | none => ⟨number, TrialState.RUNNING, none, [], [], [], [], []⟩
    | some tpl => { tpl with number := number }
  (⟨ts.trials ++ [t]⟩, number)

/-- Modelled from the spec (section 4.3): the legal transitions of the trial
state machine, which `set_trial_state` enforces. -/
def can_transition : TrialState → TrialState → Bool
  | .WAITING, .RUNNING => true
  | .RUNNING, .COMPLETE => true
  | .RUNNING, .PRUNED => true
  | .RUNNING, .FAIL => true
  | _, _ => false

/-- Modelled from the spec (section 4.3): `set_trial_value` records the value
of the trial with the given id. -/
def set_trial_value (ts : TrialStore) (tid : Nat) (v : Int) : TrialStore :=
  ⟨ts.trials.map fun t =>
    if t.number == tid then { t with value := some v } else t⟩

/-- Modelled from the spec (section 4.3): `set_trial_state` moves the trial
with the given id to the new state, rejecting (leaving the record unchanged)
transitions that violate the state machine. -/
def set_trial_state (ts : TrialStore) (tid : Nat) (s : TrialState) : TrialStore :=
  ⟨ts.trials.map fun t =>
    if t.number == tid && can_transition t.state s then { t with state := s } else t⟩

/-- Modelled from the spec (section 4.3): a refresh hint, a no-op for the
single-process in-memory backend. -/
def read_trials_from_remote_storage (ts : TrialStore) : TrialStore := ts

/-- Modelled from the spec (section 4.3): `get_all_trials` returns the trial
records ordered by number. -/
def get_all_trials (ts : TrialStore) : List FrozenTrial := ts.trials

/-- `Study.ask` (source `_study.py`): refresh from remote storage, then
atomically allocate a new trial and return its handle. -/
def ask (ts : TrialStore) : TrialStore × Trial :=
  let ts := read_trials_from_remote_storage ts
  let r := create_new_trial ts none
  (r.1, ⟨r.2⟩)

/-- The numbers of the trials returned by a sequence of `n` `ask` calls,
in call order. -/
def askNumbers : Nat → TrialStore → List Nat
  | 0, _ => []
  | n + 1, ts =>
    let r := ask ts
    r.2.trial_id :: askNumbers n r.1

/-- One write against storage, as issued by `Study.tell`. -/
inductive StorageOp where
  | set_value (tid : Nat) (v : Int)
  | set_state (tid : Nat) (s : TrialState)
deriving DecidableEq

/-- Apply one storage write. -/
def applyOp (ts : TrialStore) : StorageOp → TrialStore
  | .set_value tid v => set_trial_value ts tid v
  | .set_state tid s => set_trial_state ts tid s

/-- The storage writes `Study.tell` issues past its assertion, in source
order: the value write (when a value is present) strictly before the state
write. -/
def tellOps (tid : Nat) (state : TrialState) (value : Option Int) :
    List StorageOp :=
  (match value with
   | some v => [StorageOp.set_value tid v]
   | none => []) ++ [StorageOp.set_state tid state]

/-- `Study.tell` (source `_study.py`): assert a value is present when the
state is COMPLETE (raising before any storage call otherwise), then write the
value (if present) and finally the state.  Returns the resulting storage and
the error raised, if any. -/
def tell (ts : TrialStore) (trial : Trial) (state : TrialState)
    (value : Option Int) : TrialStore × Option StudyError :=
  if state == TrialState.COMPLETE && value.isNone then
    (ts, some StudyError.assertion_error)
  else
    ((tellOps trial.trial_id state value).foldl applyOp ts, none)

/-- The value of a trial, defaulting to 0 when absent.  Per the spec
(section 3) a COMPLETE trial always carries a value, so on the trials
`get_best_trial` compares the default is never consulted. -/
def trial_value (t : FrozenTrial) : Int := t.value.getD 0

/-- Whether `a` is strictly better than `b` under direction `d`. -/
def better (d : StudyDirection) (a b : Int) : Bool :=
  match d with
  | .MINIMIZE => a < b
  | .MAXIMIZE => b < a

/-- Keep the better of the current best and the next candidate trial. -/
def pick (d : StudyDirection) (best c : FrozenTrial) : FrozenTrial :=
  if better d (trial_value c) (trial_value best) then c else best

/-- Modelled from the spec (sections 4.1 and 4.3): `get_best_trial` returns
the trial with the extreme value according to the direction among COMPLETE
trials, and fails with the empty-result error when no COMPLETE trial
exists. -/
def get_best_trial (ts : TrialStore) (d : StudyDirection) :
    Except StudyError FrozenTrial :=
  match ts.trials.filter (fun t => t.state == TrialState.COMPLETE) with
  | [] => Except.error StudyError.empty_result
  | t :: rest => Except.ok (rest.foldl (pick d) t)

/-- `Study.best_value` (source `_study.py`): the value of the best trial,
with the source's assertion that it is present. -/
def best_value (ts : TrialStore) (d : StudyDirection) : Except StudyError Int :=
  match get_best_trial ts d with
  | Except.error e => Except.error e
  | Except.ok t =>
    match t.value with
    | some v => Except.ok v
    | none => Except.error StudyError.assertion_error

/-- The values of the COMPLETE trials of the store, in storage order. -/
def complete_values (ts : TrialStore) : List Int :=
  (ts.trials.filter (fun t => t.state == TrialState.COMPLETE)).map trial_value

/-- One key list is contained in another. -/
def keys_subset (a b : List String) : Bool := a.all fun k => b.contains k

/-- Modelled from the spec (section 4.1): `FrozenTrial._validate` checks the
trial is internally consistent: `params` keys and `distributions` keys contain
each other, and a finished trial carries a value. -/
def validate (t : FrozenTrial) : Bool :=
  keys_subset (t.params.map Prod.fst) (t.distributions.map Prod.fst) &&
  keys_subset (t.distributions.map Prod.fst) (t.params.map Prod.fst) &&
  (!t.state.is_finished || t.value.isSome)

/-- `Study.add_trial` (source `_study.py`): validate the trial locally first,
raising (with no storage call) on an invalid trial, then insert it as a new
trial in storage from the template. -/
def add_trial (ts : TrialStore) (t : FrozenTrial) :
    TrialStore × Option StudyError :=
  if validate t then ((create_new_trial ts (some t)).1, none)
  else (ts, some StudyError.value_error)

/-- Modelled from the spec: `optuna_core.trial.create_trial` is not in the
source slice; it builds a FrozenTrial from the given fields (the number is a
placeholder, storage assigns a fresh one on insertion). -/
def create_trial (state : TrialState) (params : List (String × Int))
    (distributions : List (String × Distribution)) (value : Option Int)
    (system_attrs : List (String × AttrVal)) : FrozenTrial :=
  ⟨0, state, value, params, distributions, [], [], system_attrs⟩

/-- `Study.enqueue_trial` (source `_study.py`): add a WAITING trial whose
system attributes carry the fixed parameter mapping under "fixed_params". -/
def enqueue_trial (ts : TrialStore) (params : List (String × Int)) :
    TrialStore × Option StudyError :=
  add_trial ts
    (create_trial TrialState.WAITING [] [] none
      [("fixed_params", AttrVal.params_val params)])

/-- The per-instance stop-coordination state of a Study: whether the optimize
lock is currently held by an evaluation loop, and the advisory stop flag. -/
structure StudyRT where
  lock_held : Bool
  stop_flag : Bool
deriving DecidableEq

/-- `Study.stop` (source `_study.py`): probe the optimize lock with a
non-blocking acquire; on success release it and raise a RuntimeError (usage
error), otherwise set the stop flag and return normally. -/
def stop (st : StudyRT) : StudyRT × Option StudyError :=
  if st.lock_held == false then
    (st, some StudyError.runtime_error)
  else
    ({ st with stop_flag := true }, none)

/-- The pruner strategies of `optuna_core.pruners`, one constructor per
concrete class re-exported there. -/
inductive BasePruner where
  | median_pruner (n_startup_trials n_warmup_steps : Nat)
  | hyperband_pruner (min_resource max_resource reduction_factor : Nat)
  | nop_pruner
  | percentile_pruner (percentile : Nat)
  | successive_halving_pruner
  | threshold_pruner (lower upper : Int)
deriving DecidableEq

/-- The `isinstance(study.pruner, HyperbandPruner)` test of
`_filter_study`. -/
def is_hyperband : BasePruner → Bool
  | .hyperband_pruner _ _ _ => true
  | _ => false

/-- A Study as seen by the pruner routing: its configured pruner plus, for the
bracket view produced by `_create_bracket_study`, the bracket id the view is
restricted to (`none` means the whole-study view, i.e. the study itself). -/
structure Study where
  study_name : String
  pruner : BasePruner
  bracket_filter : Option Nat
deriving DecidableEq

/-- Modelled from the spec (section 4.2): `HyperbandPruner._get_bracket_id` is
not in the source slice; the bracket id is read from the trial's system
attributes. -/
def get_bracket_id (t : FrozenTrial) : Nat :=
  match t.system_attrs.lookup "bracket_id" with
  | some (AttrVal.int_val i) => i.toNat
  | _ => 0

/-- Modelled from the spec (section 4.2):
`HyperbandPruner._create_bracket_study` is not in the source slice; it wraps
the study in a read-only view restricted to one bracket. -/
def create_bracket_study (study : Study) (bracket_id : Nat) : Study :=
  { study with bracket_filter := some bracket_id }

/-- `_filter_study` (source `pruners/__init__.py`): route through the bracket
view for a Hyperband pruner, and return the study itself otherwise. -/
def filter_study (study : Study) (t : FrozenTrial) : Study :=
  if is_hyperband study.pruner then
    create_bracket_study study (get_bracket_id t)
  else study

/-- `StudySummary` (source `_study_summary.py`): the aggregate attributes of a
study.  The `datetime_start` attribute is embedded as an opaque optional
number. -/
structure StudySummary where
  study_name : String
  direction : StudyDirection
  best_trial : Option FrozenTrial
  user_attrs : List (String × AttrVal)
  system_attrs : List (String × AttrVal)
  n_trials : Nat
  datetime_start : Option Nat
  study_id : Nat
deriving DecidableEq

/-- `StudySummary.__eq__`: compares the full attribute dictionaries, i.e.
every attribute of the two summaries. -/
def StudySummary.eq (a b : StudySummary) : Bool := decide (a = b)

/-- `StudySummary.__lt__`: compares the study ids. -/
def StudySummary.lt (a b : StudySummary) : Bool := decide (a.study_id < b.study_id)

/-- `StudySummary.__le__`: compares the study ids. -/
def StudySummary.le (a b : StudySummary) : Bool := decide (a.study_id ≤ b.study_id)

/-- One study row inside a storage backend: its unique name and its direction,
unset until `set_study_direction` is called. -/
structure StudyRecord where
  name : String
  direction : Option StudyDirection
deriving DecidableEq

/-- Modelled from the spec: the study rows of a storage backend
(`InMemoryStorage` is not part of the source slice).  The study id is the
row index. -/
structure StudyStore where
  studies : List StudyRecord
deriving DecidableEq

/-- A storage with no studies. -/
def StudyStore.empty : StudyStore := ⟨[]⟩

/-- The study name used by `create_new_study`: the given one, or an
auto-generated one when absent. -/
def resolve_name (s : StudyStore) (name : Option String) : String :=
  match name with
  | some n => n
  | none => "no-name-" ++ toString s.studies.length

/-- Modelled from the spec (section 4.3): `create_new_study` fails with the
duplicate-name signal when the name already exists, and otherwise appends a
new study row with no direction set and returns its id. -/
def create_new_study (s : StudyStore) (name : Option String) :
    Except StudyError (StudyStore × Nat) :=
  let nm := resolve_name s name
  if s.studies.any (fun r => r.name == nm) then
    Except.error StudyError.duplicated_study
  else
    Except.ok (⟨s.studies ++ [⟨nm, none⟩]⟩, s.studies.length)

/-- Modelled from the spec (section 4.3): `set_study_direction` records the
direction of the study row with the given id. -/
def set_study_direction (s : StudyStore) (sid : Nat) (d : StudyDirection) :
    StudyStore :=
  ⟨s.studies.mapIdx fun i r => if i = sid then { r with direction := some d } else r⟩

/-- `create_study` (source `_study.py`): create the study row (falling back to
the existing row when the name is taken and `load_if_exists` is set), then
check the direction string and raise a ValueError on anything other than
"minimize" or "maximize" — only after the row already exists — and finally
record the direction. -/
def create_study (s : StudyStore) (study_name : Option String)
    (direction : String) (load_if_exists : Bool) :
    StudyStore × Except StudyError Nat :=
  let step1 : Except StudyError (StudyStore × Nat) :=
    match create_new_study s study_name with
    | Except.ok r => Except.ok r
    | Except.error e =>
      match load_if_exists, study_name with
      | true, some nm =>
        match s.studies.findIdx? (fun r => r.name == nm) with
        | some sid => Except.ok (s, sid)
        | none => Except.error StudyError.storage_failure
      | _, _ => Except.error e
  match step1 with
  | Except.error e => (s, Except.error e)
  | Except.ok (s1, sid) =>
    if direction == "minimize" then
      (set_study_direction s1 sid StudyDirection.MINIMIZE, Except.ok sid)
    else if direction == "maximize" then
      (set_study_direction s1 sid StudyDirection.MAXIMIZE, Except.ok sid)
    else
      (s1, Except.error StudyError.value_error)

/-- A COMPLETE trial with the given number and value, used as concrete input
by witnesses. -/
def completeTrial (n : Nat) (v : Int) : FrozenTrial :=
  ⟨n, TrialState.COMPLETE, some v, [], [], [], [], []⟩

/-- A concrete RUNNING trial, used as concrete input by witnesses. -/
def runningTrial (n : Nat) : FrozenTrial :=
  ⟨n, TrialState.RUNNING, none, [], [], [], [], []⟩

/-- A concrete store holding two COMPLETE trials and one RUNNING trial. -/
def demoStore : TrialStore :=
  ⟨[completeTrial 0 5, runningTrial 1, completeTrial 2 2]⟩

/-- A concrete invalid trial: a parameter with no matching distribution. -/
def demoBadTrial : FrozenTrial :=
  ⟨0, TrialState.COMPLETE, some 4, [("x", 2)], [], [], [], []⟩

/-- A concrete trial carrying a bracket id, used by a witness. -/
def demoBracketTrial : FrozenTrial :=
  ⟨0, TrialState.RUNNING, none, [], [], [], [], [("bracket_id", AttrVal.int_val 1)]⟩

/-- A concrete study configured with a non-Hyperband pruner. -/
def demoMedianStudy : Study := ⟨"demo", BasePruner.median_pruner 5 0, none⟩

/-- A concrete store holding one RUNNING trial. -/
def demoRunStore : TrialStore := ⟨[runningTrial 0]⟩

/-- A concrete stop-coordination state with the optimize lock not held. -/
def demoRT : StudyRT := ⟨false, false⟩

/-- Whether `a` is at least as good as `b` under direction `d`. -/
def dir_le (d : StudyDirection) (a b : Int) : Prop :=
  match d with
  | .MINIMIZE => a ≤ b
  | .MAXIMIZE => b ≤ a

/-- Two concrete summaries sharing a study id but differing in name. -/
def summaryA : StudySummary := ⟨"a", StudyDirection.MINIMIZE, none, [], [], 0, none, 7⟩

/-- See `summaryA`: same study id, different name. -/
def summaryB : StudySummary := ⟨"b", StudyDirection.MINIMIZE, none, [], [], 0, none, 7⟩

/-! Shared helper lemmas. -/

/-- A finished state differs from RUNNING. -/
theorem finished_ne_running (s : TrialState) (h : s.is_finished = true) :
    s ≠ TrialState.RUNNING := by
  cases s <;> simp_all [TrialState.is_finished]

/-- The state machine admits the transition from RUNNING to a finished
state. -/
theorem can_transition_running_finished (s : TrialState)
    (h : s.is_finished = true) :
    can_transition TrialState.RUNNING s = true := by
  cases s <;> simp_all [TrialState.is_finished, can_transition]

/-- Each `ask` grows the store by one trial. -/
theorem ask_length (ts : TrialStore) :
    (ask ts).1.trials.length = ts.trials.length + 1 := by
  simp [ask, create_new_trial, read_trials_from_remote_storage]

/-- The numbers returned by `n` asks count up from the current size of the
store. -/
theorem askNumbers_eq_range' (n : Nat) :
    ∀ ts : TrialStore, askNumbers n ts = List.range' ts.trials.length n := by
  induction n with
  | zero => intro ts; rfl
  | succ n ih =>
    intro ts
    have hlen := ask_length ts
    have hid : (ask ts).2.trial_id = ts.trials.length := by
      simp [ask, create_new_trial, read_trials_from_remote_storage]
    rw [List.range'_succ]
    show (ask ts).2.trial_id :: askNumbers n (ask ts).1 = _
    rw [hid, ih (ask ts).1, hlen]

/-- C1: for every sequence of `ask()` calls on one (fresh) study, the trial
numbers of the returned trials are exactly `0, 1, ..., n-1`: strictly
increasing, gap-free, starting at 0, with no repeats. -/
theorem ask_numbers_sequential (n : Nat) :
    askNumbers n TrialStore.empty = List.range n := by
  rw [askNumbers_eq_range' n TrialStore.empty, List.range_eq_range']
  rfl

/-- C3: `tell(trial, COMPLETE, None)` fails fast with the assertion error and
performs no storage mutation: the store is returned unchanged. -/
theorem tell_complete_none_fails (ts : TrialStore) (trial : Trial) :
    (tell ts trial TrialState.COMPLETE none).2 = some StudyError.assertion_error ∧
    (tell ts trial TrialState.COMPLETE none).1 = ts := by
  constructor <;> rfl

/-- C4: `stop()` raises the usage error exactly when the optimize lock is not
held; when it raises it leaves the stop-coordination state (hence the stop
flag) unchanged, and when the lock is held it sets the stop flag and returns
normally. -/
theorem stop_lock_probe (st : StudyRT) :
    ((stop st).2 = some StudyError.runtime_error ↔ st.lock_held = false) ∧
    (st.lock_held = false → (stop st).1 = st) ∧
    (st.lock_held = true →
      (stop st).2 = none ∧ (stop st).1.stop_flag = true ∧
      (stop st).1.lock_held = st.lock_held) := by
  cases st with
  | mk lh sf => cases lh <;> simp [stop]

/-- Witness for C4 at a concrete state with the lock not held. -/
theorem stop_lock_probe_witness :
    ((stop demoRT).2 = some StudyError.runtime_error ↔ demoRT.lock_held = false) ∧
    (demoRT.lock_held = false → (stop demoRT).1 = demoRT) ∧
    (demoRT.lock_held = true →
      (stop demoRT).2 = none ∧ (stop demoRT).1.stop_flag = true ∧
      (stop demoRT).1.lock_held = demoRT.lock_held) :=
  stop_lock_probe demoRT

/-- C6: `enqueue_trial(params)` succeeds and appends one new trial whose state
is WAITING and whose system attributes are exactly the fixed-parameter
payload; reading the trials back from storage yields the identical mapping. -/
theorem enqueue_trial_waiting_roundtrip (ts : TrialStore)
    (ps : List (String × Int)) :
    (enqueue_trial ts ps).2 = none ∧
    ∃ t, get_all_trials (enqueue_trial ts ps).1 = get_all_trials ts ++ [t] ∧
      t.state = TrialState.WAITING ∧
      t.system_attrs = [("fixed_params", AttrVal.params_val ps)] := by
  refine ⟨rfl, ⟨_, rfl, rfl, rfl⟩⟩

/-- C8: for a study whose pruner is not the Hyperband pruner, the bracket
filter returns the study itself, for every trial. -/
theorem filter_study_identity (study : Study) (t : FrozenTrial)
    (h : is_hyperband study.pruner = false) :
    filter_study study t = study := by
  simp [filter_study, h]

/-- Witness for C8 at a concrete median-pruner study and a concrete trial. -/
theorem filter_study_identity_witness :
    is_hyperband demoMedianStudy.pruner = false ∧
    filter_study demoMedianStudy demoBracketTrial = demoMedianStudy :=
  ⟨by decide, filter_study_identity demoMedianStudy demoBracketTrial (by decide)⟩

/-- C9 counterexample: two summaries with the same study id but different
names satisfy `a <= b` and `b <= a` while `a == b` is false, so the comparison
operators are not consistent with equality as the claim states. -/
theorem studysummary_le_not_antisymmetric :
    StudySummary.le summaryA summaryB = true ∧
    StudySummary.le summaryB summaryA = true ∧
    StudySummary.eq summaryA summaryB = false := by
  refine ⟨by decide, by decide, by decide⟩

/-- C9 amended: `a < b` iff `a`'s study id is less, `a <= b` iff it is less or
equal, the order is total, and `a <= b` with `b <= a` implies equal study ids
(but not `a == b`, which compares every attribute). -/
theorem studysummary_order_by_study_id (a b : StudySummary) :
    (StudySummary.lt a b = true ↔ a.study_id < b.study_id) ∧
    (StudySummary.le a b = true ↔ a.study_id ≤ b.study_id) ∧
    (StudySummary.le a b = true → StudySummary.le b a = true →
      a.study_id = b.study_id) ∧
    (StudySummary.le a b = true ∨ StudySummary.le b a = true) := by
  refine ⟨by simp [StudySummary.lt], by simp [StudySummary.le], ?_, ?_⟩
  · intro h1 h2
    simp [StudySummary.le] at h1 h2
    omega
  · simp [StudySummary.le]
    omega

/-- Witness for the amended C9 at two concrete summaries. -/
theorem studysummary_order_by_study_id_witness :
    (StudySummary.lt summaryA summaryB = true ↔
      summaryA.study_id < summaryB.study_id) ∧
    (StudySummary.le summaryA summaryB = true ↔
      summaryA.study_id ≤ summaryB.study_id) ∧
    (StudySummary.le summaryA summaryB = true →
      StudySummary.le summaryB summaryA = true →
      summaryA.study_id = summaryB.study_id) ∧
    (StudySummary.le summaryA summaryB = true ∨
      StudySummary.le summaryB summaryA = true) :=
  studysummary_order_by_study_id summaryA summaryB

/-- C7: an internally inconsistent FrozenTrial (parameter keys and
distribution keys differ, or a finished state without a value) is rejected by
`add_trial` before any storage mutation: the store, and in particular its
trial count, is unchanged. -/
theorem add_trial_invalid_no_mutation (ts : TrialStore) (t : FrozenTrial)
    (h : (keys_subset (t.params.map Prod.fst) (t.distributions.map Prod.fst) &&
          keys_subset (t.distributions.map Prod.fst) (t.params.map Prod.fst))
            = false ∨
         (t.state.is_finished = true ∧ t.value = none)) :
    (add_trial ts t).1 = ts ∧
    (add_trial ts t).2 = some StudyError.value_error ∧
    (get_all_trials (add_trial ts t).1).length = (get_all_trials ts).length := by
  have hv : validate t = false := by
    unfold validate
    rcases h with h | ⟨h1, h2⟩
    · simp [h]
    · simp [h1, h2]
  simp [add_trial, hv]

/-- Witness for C7: a trial with a parameter but no matching distribution is
rejected and the empty store stays empty. -/
theorem add_trial_invalid_no_mutation_witness :
    ((keys_subset (demoBadTrial.params.map Prod.fst)
        (demoBadTrial.distributions.map Prod.fst) &&
      keys_subset (demoBadTrial.distributions.map Prod.fst)
        (demoBadTrial.params.map Prod.fst)) = false ∨
     (demoBadTrial.state.is_finished = true ∧ demoBadTrial.value = none)) ∧
    ((add_trial TrialStore.empty demoBadTrial).1 = TrialStore.empty ∧
     (add_trial TrialStore.empty demoBadTrial).2 = some StudyError.value_error ∧
     (get_all_trials (add_trial TrialStore.empty demoBadTrial).1).length =
       (get_all_trials TrialStore.empty).length) :=
  ⟨Or.inl (by decide),
   add_trial_invalid_no_mutation TrialStore.empty demoBadTrial (Or.inl (by decide))⟩

/-- C10: `create_study` with a direction string other than "minimize" or
"maximize" raises the ValueError only after the study row has been created:
the failed call leaves one new study row, with no direction set, in
storage. -/
theorem create_study_bad_direction (s : StudyStore) (study_name : Option String)
    (direction : String) (load_if_exists : Bool)
    (h1 : direction ≠ "minimize") (h2 : direction ≠ "maximize")
    (h3 : s.studies.any (fun r => r.name == resolve_name s study_name) = false) :
    (create_study s study_name direction load_if_exists).2 =
      Except.error StudyError.value_error ∧
    (create_study s study_name direction load_if_exists).1.studies =
      s.studies ++ [⟨resolve_name s study_name, none⟩] := by
  constructor <;>
    simp [create_study, create_new_study, h3, beq_iff_eq, h1, h2]

/-- Witness for C10: creating a study in an empty storage with direction
"median" fails with the ValueError yet leaves the new directionless row. -/
theorem create_study_bad_direction_witness :
    ("median" ≠ "minimize") ∧ ("median" ≠ "maximize") ∧
    (StudyStore.empty.studies.any
      (fun r => r.name == resolve_name StudyStore.empty none) = false) ∧
    ((create_study StudyStore.empty none "median" false).2 =
      Except.error StudyError.value_error ∧
     (create_study StudyStore.empty none "median" false).1.studies =
      StudyStore.empty.studies ++ [⟨resolve_name StudyStore.empty none, none⟩]) :=
  ⟨by decide, by decide, by decide,
   create_study_bad_direction StudyStore.empty none "median" false
     (by decide) (by decide) (by decide)⟩

/-- C2: a successful `tell` with a value issues the value write strictly
before the state write, and after every prefix of those writes an observer of
storage never sees the trial in the terminal state being written without the
value already recorded. -/
theorem tell_value_write_before_state_write (ts : TrialStore) (trial : Trial)
    (state : TrialState) (v : Int)
    (hfin : state.is_finished = true)
    (hrun : ∀ t ∈ ts.trials, t.number = trial.trial_id →
      t.state = TrialState.RUNNING) :
    tellOps trial.trial_id state (some v) =
      [StorageOp.set_value trial.trial_id v,
       StorageOp.set_state trial.trial_id state] ∧
    ∀ k,
      ∀ t ∈ (((tellOps trial.trial_id state (some v)).take k).foldl
          applyOp ts).trials,
        t.number = trial.trial_id → t.state = state → t.value = some v := by
  have hOps : tellOps trial.trial_id state (some v) =
      [StorageOp.set_value trial.trial_id v,
       StorageOp.set_state trial.trial_id state] := rfl
  refine ⟨hOps, ?_⟩
  intro k t ht hnum hst
  rw [hOps] at ht
  rcases k with _ | (_ | n)
  · have ht' : t ∈ ts.trials := ht
    have hR := hrun t ht' hnum
    rw [hst] at hR
    exact absurd hR (finished_ne_running state hfin)
  · have ht' : t ∈ (set_trial_value ts trial.trial_id v).trials := ht
    simp only [set_trial_value, List.mem_map] at ht'
    obtain ⟨u, hu, hueq⟩ := ht'
    by_cases hb : u.number = trial.trial_id
    · rw [if_pos (by simp [hb])] at hueq
      have hR := hrun u hu hb
      have hts : t.state = u.state := by rw [← hueq]
      rw [hst, hR] at hts
      exact absurd hts (finished_ne_running state hfin)
    · rw [if_neg (by simp [beq_iff_eq, hb])] at hueq
      rw [hueq] at hb
      exact absurd hnum hb
  · have htake : [StorageOp.set_value trial.trial_id v,
        StorageOp.set_state trial.trial_id state].take (n + 1 + 1) =
        [StorageOp.set_value trial.trial_id v,
         StorageOp.set_state trial.trial_id state] := by
      rw [List.take_succ_cons, List.take_succ_cons, List.take_nil]
    rw [htake] at ht
    have ht' : t ∈ (set_trial_state (set_trial_value ts trial.trial_id v)
        trial.trial_id state).trials := ht
    simp only [set_trial_state, List.mem_map] at ht'
    obtain ⟨u, hu, hueq⟩ := ht'
    simp only [set_trial_value, List.mem_map] at hu
    obtain ⟨w, hw, hweq⟩ := hu
    by_cases hb : w.number = trial.trial_id
    · rw [if_pos (by simp [hb])] at hweq
      have hRw : w.state = TrialState.RUNNING := hrun w hw hb
      have hcond : (u.number == trial.trial_id &&
          can_transition u.state state) = true := by
        rw [← hweq]
        simp [beq_iff_eq, hb, hRw, can_transition_running_finished state hfin]
      rw [if_pos hcond] at hueq
      have hval : t.value = u.value := by rw [← hueq]
      rw [hval, ← hweq]
    · rw [if_neg (by simp [beq_iff_eq, hb])] at hweq
      have hcond : (u.number == trial.trial_id &&
          can_transition u.state state) = false := by
        rw [← hweq]
        simp [beq_iff_eq, hb]
      rw [if_neg (by simp [hcond])] at hueq
      rw [← hueq, ← hweq] at hnum
      exact absurd hnum hb

/-- Witness for C2 at a concrete running trial, checked after both writes of
`tell(trial 0, COMPLETE, 9)`. -/
theorem tell_value_write_before_state_write_witness :
    TrialState.COMPLETE.is_finished = true ∧
    (∀ t ∈ demoRunStore.trials, t.number = (Trial.mk 0).trial_id →
      t.state = TrialState.RUNNING) ∧
    (∀ t ∈ (((tellOps (Trial.mk 0).trial_id TrialState.COMPLETE
        (some 9)).take 2).foldl applyOp demoRunStore).trials,
      t.number = (Trial.mk 0).trial_id → t.state = TrialState.COMPLETE →
      t.value = some 9) :=
  ⟨by decide, by decide,
   (tell_value_write_before_state_write demoRunStore (Trial.mk 0)
     TrialState.COMPLETE 9 (by decide) (by decide)).2 2⟩

/-- `pick` returns one of its two arguments. -/
theorem pick_eq_or (d : StudyDirection) (a b : FrozenTrial) :
    pick d a b = a ∨ pick d a b = b := by
  unfold pick
  split
  · exact Or.inr rfl
  · exact Or.inl rfl

/-- `dir_le` is reflexive. -/
theorem dir_le_refl (d : StudyDirection) (a : Int) : dir_le d a a := by
  cases d <;> simp [dir_le]

/-- `dir_le` is transitive. -/
theorem dir_le_trans (d : StudyDirection) (a b c : Int)
    (h1 : dir_le d a b) (h2 : dir_le d b c) : dir_le d a c := by
  cases d <;> (simp only [dir_le] at h1 h2 ⊢; omega)

/-- `pick` is at least as good as its first argument. -/
theorem pick_dir_le_left (d : StudyDirection) (a b : FrozenTrial) :
    dir_le d (trial_value (pick d a b)) (trial_value a) := by
  unfold pick
  split
  · rename_i h
    cases d <;> simp_all [better, dir_le] <;> omega
  · exact dir_le_refl d _

/-- `pick` is at least as good as its second argument. -/
theorem pick_dir_le_right (d : StudyDirection) (a b : FrozenTrial) :
    dir_le d (trial_value (pick d a b)) (trial_value b) := by
  unfold pick
  split
  · exact dir_le_refl d _
  · rename_i h
    cases d <;> simp_all [better, dir_le]

/-- Folding `pick` returns one of the candidate trials. -/
theorem foldl_pick_mem (d : StudyDirection) (l : List FrozenTrial) :
    ∀ t : FrozenTrial, l.foldl (pick d) t ∈ t :: l := by
  induction l with
  | nil => intro t; simp
  | cons x xs ih =>
    intro t
    simp only [List.foldl_cons]
    rcases List.mem_cons.mp (ih (pick d t x)) with h | h
    · rw [h]
      rcases pick_eq_or d t x with hp | hp <;> rw [hp] <;> simp
    · exact List.mem_cons_of_mem _ (List.mem_cons_of_mem _ h)

/-- Folding `pick` yields a value at least as good as every candidate's. -/
theorem foldl_pick_le (d : StudyDirection) (l : List FrozenTrial) :
    ∀ t : FrozenTrial, ∀ u ∈ t :: l,
      dir_le d (trial_value (l.foldl (pick d) t)) (trial_value u) := by
  induction l with
  | nil =>
    intro t u hu
    rcases List.mem_cons.mp hu with h | h
    · rw [h]; exact dir_le_refl d _
    · exact absurd h (List.not_mem_nil u)
  | cons x xs ih =>
    intro t u hu
    simp only [List.foldl_cons]
    rcases List.mem_cons.mp hu with h | h
    · rw [h]
      exact dir_le_trans d _ _ _
        (ih (pick d t x) (pick d t x) (List.mem_cons_self _ _))
        (pick_dir_le_left d t x)
    · rcases List.mem_cons.mp h with h2 | h2
      · rw [h2]
        exact dir_le_trans d _ _ _
          (ih (pick d t x) (pick d t x) (List.mem_cons_self _ _))
          (pick_dir_le_right d t x)
      · exact ih (pick d t x) u (List.mem_cons_of_mem _ h2)

/-- C5: with no COMPLETE trial, `best_trial` and `best_value` fail with the
empty-result error (a distinct constructor from a storage failure); with at
least one COMPLETE trial, `best_value` is the minimum of the COMPLETE trials'
values under MINIMIZE and their maximum under MAXIMIZE. -/
theorem best_value_extreme (ts : TrialStore)
    (hw : ∀ t ∈ ts.trials, t.state = TrialState.COMPLETE →
      t.value.isSome = true) :
    (complete_values ts = [] →
      get_best_trial ts StudyDirection.MINIMIZE =
        Except.error StudyError.empty_result ∧
      get_best_trial ts StudyDirection.MAXIMIZE =
        Except.error StudyError.empty_result ∧
      best_value ts StudyDirection.MINIMIZE =
        Except.error StudyError.empty_result ∧
      best_value ts StudyDirection.MAXIMIZE =
        Except.error StudyError.empty_result) ∧
    (complete_values ts ≠ [] →
      (∃ m, best_value ts StudyDirection.MINIMIZE = Except.ok m ∧
        m ∈ complete_values ts ∧ ∀ w ∈ complete_values ts, m ≤ w) ∧
      (∃ m, best_value ts StudyDirection.MAXIMIZE = Except.ok m ∧
        m ∈ complete_values ts ∧ ∀ w ∈ complete_values ts, w ≤ m)) := by
  rcases hF : ts.trials.filter (fun t => t.state == TrialState.COMPLETE) with
    _ | ⟨t, rest⟩
  · constructor
    · intro _
      have hbt : ∀ d, get_best_trial ts d = Except.error StudyError.empty_result := by
        intro d
        unfold get_best_trial
        rw [hF]
      refine ⟨hbt _, hbt _, ?_, ?_⟩ <;> · unfold best_value; rw [hbt]
    · intro hne
      exact absurd (by unfold complete_values; rw [hF]; rfl) hne
  · have hcv : complete_values ts = (t :: rest).map trial_value := by
      unfold complete_values; rw [hF]
    constructor
    · intro hemp
      rw [hcv] at hemp
      exact absurd hemp (by simp)
    · intro _
      have hmain : ∀ d : StudyDirection,
          ∃ m, best_value ts d = Except.ok m ∧ m ∈ complete_values ts ∧
            ∀ w ∈ complete_values ts, dir_le d m w := by
        intro d
        have hbt : get_best_trial ts d = Except.ok (rest.foldl (pick d) t) := by
          unfold get_best_trial
          rw [hF]
        have hmem : rest.foldl (pick d) t ∈ t :: rest := foldl_pick_mem d rest t
        have hmem' : rest.foldl (pick d) t ∈
            ts.trials.filter (fun t => t.state == TrialState.COMPLETE) := by
          rw [hF]; exact hmem
        have hmemT : rest.foldl (pick d) t ∈ ts.trials :=
          (List.mem_filter.mp hmem').1
        have hcomp : (rest.foldl (pick d) t).state = TrialState.COMPLETE := by
          have := (List.mem_filter.mp hmem').2
          simpa [beq_iff_eq] using this
        have hsome := hw _ hmemT hcomp
        obtain ⟨m, hm⟩ := Option.isSome_iff_exists.mp hsome
        have hmv : trial_value (rest.foldl (pick d) t) = m := by
          unfold trial_value; rw [hm]; rfl
        refine ⟨m, ?_, ?_, ?_⟩
        · simp [best_value, hbt, hm]
        · rw [hcv, ← hmv]
          exact List.mem_map_of_mem trial_value hmem
        · intro w hwv
          rw [hcv] at hwv
          obtain ⟨u, hu, huw⟩ := List.mem_map.mp hwv
          rw [← hmv, ← huw]
          exact foldl_pick_le d rest t u hu
      refine ⟨?_, ?_⟩
      · obtain ⟨m, h1, h2, h3⟩ := hmain StudyDirection.MINIMIZE
        exact ⟨m, h1, h2, h3⟩
      · obtain ⟨m, h1, h2, h3⟩ := hmain StudyDirection.MAXIMIZE
        exact ⟨m, h1, h2, h3⟩

/-- Witness for C5 at a concrete store with COMPLETE values 5 and 2. -/
theorem best_value_extreme_witness :
    (∀ t ∈ demoStore.trials, t.state = TrialState.COMPLETE →
      t.value.isSome = true) ∧
    ((∃ m, best_value demoStore StudyDirection.MINIMIZE = Except.ok m ∧
        m ∈ complete_values demoStore ∧
        ∀ w ∈ complete_values demoStore, m ≤ w) ∧
     (∃ m, best_value demoStore StudyDirection.MAXIMIZE = Except.ok m ∧
        m ∈ complete_values demoStore ∧
        ∀ w ∈ complete_values demoStore, w ≤ m)) :=
  ⟨by decide,
   (best_value_extreme demoStore (by decide)).2 (by decide)⟩

end OptunaCore
